import Mathlib

/-!
Shallow embedding of the dual-instance USB CDC-ACM class driver found in
src/src/usb/usbd_cdc.c.  The link-layer primitives (USBD_LL_*), the
control-endpoint helpers (USBD_Ctl*) and the application callback set
(USBD_CDC_ItfTypeDef) are external collaborators: every call the driver
makes to one of them is recorded as an `Event`.  Each driver entry point
becomes a pure function from the device state to the new device state,
the list of external calls performed (in order), and the returned status.
Machine integers are modelled as `Nat`; the C values involved (endpoint
numbers, request fields, lengths) are all far below any overflow boundary
in the code paths modelled here, and no arithmetic in the source wraps.
-/

namespace UsbdCdc

/-- Modelled from the spec: the number of logical serial instances.  The
constant `NUM_CDC_INSTANCES` comes from a header that is not part of
src/; the spec fixes it to two ("TWO independent virtual serial ports",
instance ids 0 and 1). -/
def NUM_CDC_INSTANCES : Nat := 2

/-- Modelled from the spec: `CDC2_EP_MASK` comes from the missing header
cdc_descriptor.h.  The spec states that instance 1's endpoint addresses
equal instance 0's with one fixed reserved bit set and that this single
bit is the sole discriminant used for endpoint classification; we model
it as bit 2. -/
def CDC2_EP_MASK : Nat := 4

/-- Modelled from the spec: instance 0 bulk-IN endpoint address, from the
missing header cdc_descriptor.h (0x80 is the USB IN-direction bit). -/
def CDC_IN_EP : Nat := 0x81

/-- Modelled from the spec: instance 0 bulk-OUT endpoint address, from
the missing header cdc_descriptor.h. -/
def CDC_OUT_EP : Nat := 0x01

/-- Modelled from the spec: instance 0 interrupt command-IN endpoint
address, from the missing header cdc_descriptor.h. -/
def CDC_CMD_EP : Nat := 0x82

/-- Modelled from the spec: instance 1 bulk-IN endpoint address, equal to
instance 0's address with the reserved second-instance bit set. -/
def CDC2_IN_EP : Nat := CDC_IN_EP ||| CDC2_EP_MASK

/-- Modelled from the spec: instance 1 bulk-OUT endpoint address, equal
to instance 0's address with the reserved second-instance bit set. -/
def CDC2_OUT_EP : Nat := CDC_OUT_EP ||| CDC2_EP_MASK

/-- Modelled from the spec: instance 1 interrupt command-IN endpoint
address, equal to instance 0's address with the reserved bit set. -/
def CDC2_CMD_EP : Nat := CDC_CMD_EP ||| CDC2_EP_MASK

/-- Modelled from the spec: instance 1's control (communication)
interface number, from the missing header cdc_descriptor.h.  Instance 0
uses interfaces 0 and 1, instance 1 uses interfaces 2 and 3. -/
def USB_CDC_CIF_NUM1 : Nat := 2

/-- Modelled from the spec: instance 1's data interface number, from the
missing header cdc_descriptor.h. -/
def USB_CDC_DIF_NUM1 : Nat := 3

/-- Modelled from the spec: bmRequest type mask, from the missing header
usbd_def.h (standard USB: bits 5 and 6 of bmRequestType). -/
def USB_REQ_TYPE_MASK : Nat := 0x60

/-- Modelled from the spec: standard-request type code (USB standard). -/
def USB_REQ_TYPE_STANDARD : Nat := 0x00

/-- Modelled from the spec: class-request type code (USB standard). -/
def USB_REQ_TYPE_CLASS : Nat := 0x20

/-- Modelled from the spec: GET_INTERFACE standard request code. -/
def USB_REQ_GET_INTERFACE : Nat := 0x0A

/-- Modelled from the spec: SET_INTERFACE standard request code. -/
def USB_REQ_SET_INTERFACE : Nat := 0x0B

/-- Modelled from the spec: bulk endpoint type code, from the missing
header usbd_def.h. -/
def USBD_EP_TYPE_BULK : Nat := 2

/-- Modelled from the spec: interrupt endpoint type code, from the
missing header usbd_def.h. -/
def USBD_EP_TYPE_INTR : Nat := 3

/-- Modelled from the spec: high-speed bulk-IN maximum packet size, from
the missing header usbd_cdc.h (USB high-speed bulk maximum). -/
def CDC_DATA_HS_IN_PACKET_SIZE : Nat := 512

/-- Modelled from the spec: high-speed bulk-OUT maximum packet size. -/
def CDC_DATA_HS_OUT_PACKET_SIZE : Nat := 512

/-- Modelled from the spec: full-speed bulk-IN maximum packet size (USB
full-speed bulk maximum). -/
def CDC_DATA_FS_IN_PACKET_SIZE : Nat := 64

/-- Modelled from the spec: full-speed bulk-OUT maximum packet size. -/
def CDC_DATA_FS_OUT_PACKET_SIZE : Nat := 64

/-- Modelled from the spec: command (interrupt) endpoint packet size. -/
def CDC_CMD_PACKET_SIZE : Nat := 8

/-- Device speed as seen through pdev->dev_speed; the code only
distinguishes USBD_SPEED_HIGH from everything else. -/
inductive USBD_Speed where
  | HIGH
  | FULL
deriving DecidableEq

/-- Return status values of the driver entry points (usbd_def.h is not
under src/; the symbols USBD_OK, USBD_BUSY, USBD_FAIL are used
symbolically by the source and modelled as an enumeration). -/
inductive USBD_Status where
  | OK
  | BUSY
  | FAIL
deriving DecidableEq

/-- Modelled from the spec: the numeric status encoding of the missing
header usbd_def.h, used to decode USBD_CDC_Init's raw `ret` values (0 on
success, 1 on allocation failure).  Spec section 7 fixes the meaning:
success is Ok and "Allocation failure during initialization => Fail". -/
def decodeStatus : Nat → USBD_Status
  | 0 => USBD_Status.OK
  | _ => USBD_Status.FAIL

/-- A C pointer value as it appears in the driver's external calls.
Distinct constructors stand for the distinct storage locations the
driver hands out: application-owned buffers (registered via the
SetTxBuffer/SetRxBuffer accessors), the shared control staging buffer
hcdc->data, the address of hcdc->RxLength[i], the raw setup-request
bytes, and the address of the function-local static `ifalt`. -/
inductive Ptr where
  | null
  | appBuf (n : Nat)
  | staging
  | rxLenCell (i : Nat)
  | reqBytes
  | ifaltCell
deriving DecidableEq

/-- The function-local static `ifalt` in USBD_CDC_Setup: initialized to
zero and never assigned anywhere in the file, hence a constant. -/
def ifalt : Nat := 0

/-- One call made by the driver to an external collaborator: a link-layer
primitive, a control-endpoint helper, or an application callback.  The
application callbacks receive the per-instance opaque context
ctxPointers[instance]; the events record the instance index. -/
inductive Event where
  | openEP (addr ty mps : Nat)
  | closeEP (addr : Nat)
  | llTransmit (addr : Nat) (buf : Ptr) (len : Nat)
  | llPrepareReceive (addr : Nat) (buf : Ptr) (mps : Nat)
  | ctlSendData (buf : Ptr) (len : Nat)
  | ctlPrepareRx (buf : Ptr) (len : Nat)
  | appInit (inst : Nat)
  | appDeInit (inst : Nat)
  | appControl (inst : Nat) (opcode : Nat) (buf : Ptr) (len : Nat)
  | appReceive (inst : Nat) (buf : Ptr) (lenPtr : Ptr)
  | appTxComplete (inst : Nat)
deriving DecidableEq

/-- USBD_CDC_HandleTypeDef: the class state allocated by USBD_CDC_Init.
The per-instance arrays are indexed 0 and 1; the staging array
hcdc->data has the fixed address `Ptr.staging` and its address is the
only aspect of it the modelled code paths use. -/
structure USBD_CDC_HandleTypeDef where
  CmdOpCode : Nat
  CmdLength : Nat
  ctrlInst : Nat
  TxBuffer : Nat → Ptr
  RxBuffer : Nat → Ptr
  TxLength : Nat → Nat
  RxLength : Nat → Nat
  TxState : Nat → Nat
  RxState : Nat → Nat

/-- USBD_HandleTypeDef, restricted to the fields this driver reads or
writes: the negotiated speed, the class state pointer, and the
registered application callback set (pUserData; modelled by an opaque
identifier, `none` when NULL). -/
structure USBD_HandleTypeDef where
  dev_speed : USBD_Speed
  pClassData : Option USBD_CDC_HandleTypeDef
  pUserData : Option Nat

/-- USBD_SetupReqTypedef: the decoded 8-byte setup packet. -/
structure USBD_SetupReqTypedef where
  bmRequest : Nat
  bRequest : Nat
  wValue : Nat
  wIndex : Nat
  wLength : Nat
deriving DecidableEq

/-- Instance resolution from a bulk endpoint number, as written in
USBD_CDC_DataIn (lines 433-436) and USBD_CDC_DataOut (lines 463-466):
instance is 1 when `epnum & CDC2_EP_MASK` is nonzero, else 0. -/
def classifyEpnum (epnum : Nat) : Nat :=
  if epnum &&& CDC2_EP_MASK ≠ 0 then 1 else 0

/-- Instance resolution from a control request's wIndex, as written in
USBD_CDC_Setup (lines 360-365): instance is 1 when wIndex equals either
of instance 1's interface numbers, else 0. -/
def classifyWIndex (wIndex : Nat) : Nat :=
  if wIndex = USB_CDC_CIF_NUM1 ∨ wIndex = USB_CDC_DIF_NUM1 then 1 else 0

/-- The six USBD_LL_OpenEP calls made by USBD_CDC_Init before the class
state allocation (lines 200-260): four bulk endpoints sized by speed,
then the two interrupt command endpoints. -/
def initOpenEvents (speed : USBD_Speed) : List Event :=
  (if speed = USBD_Speed.HIGH then
    [Event.openEP CDC_IN_EP USBD_EP_TYPE_BULK CDC_DATA_HS_IN_PACKET_SIZE,
     Event.openEP CDC_OUT_EP USBD_EP_TYPE_BULK CDC_DATA_HS_OUT_PACKET_SIZE,
     Event.openEP CDC2_IN_EP USBD_EP_TYPE_BULK CDC_DATA_HS_IN_PACKET_SIZE,
     Event.openEP CDC2_OUT_EP USBD_EP_TYPE_BULK CDC_DATA_HS_OUT_PACKET_SIZE]
  else
    [Event.openEP CDC_IN_EP USBD_EP_TYPE_BULK CDC_DATA_FS_IN_PACKET_SIZE,
     Event.openEP CDC_OUT_EP USBD_EP_TYPE_BULK CDC_DATA_FS_OUT_PACKET_SIZE,
     Event.openEP CDC2_IN_EP USBD_EP_TYPE_BULK CDC_DATA_FS_IN_PACKET_SIZE,
     Event.openEP CDC2_OUT_EP USBD_EP_TYPE_BULK CDC_DATA_FS_OUT_PACKET_SIZE])
  ++ [Event.openEP CDC_CMD_EP USBD_EP_TYPE_INTR CDC_CMD_PACKET_SIZE,
      Event.openEP CDC2_CMD_EP USBD_EP_TYPE_INTR CDC_CMD_PACKET_SIZE]

/-- The per-instance loop of USBD_CDC_Init (lines 274-281): for each
instance set TxState and RxState to 0 and invoke the application Init
callback.  No other handle field is written by USBD_CDC_Init. -/
def initInstances (h : USBD_CDC_HandleTypeDef) :
    USBD_CDC_HandleTypeDef × List Event :=
  (List.range NUM_CDC_INSTANCES).foldl
    (fun acc i =>
      ({ acc.1 with
          TxState := Function.update acc.1.TxState i 0,
          RxState := Function.update acc.1.RxState i 0 },
       acc.2 ++ [Event.appInit i]))
    (h, [])

/-- The two USBD_LL_PrepareReceive calls made at the end of a successful
USBD_CDC_Init (lines 283-306), arming both bulk-OUT endpoints with the
handle's RxBuffers at the speed-appropriate packet size. -/
def initPrepareEvents (speed : USBD_Speed) (h : USBD_CDC_HandleTypeDef) :
    List Event :=
  if speed = USBD_Speed.HIGH then
    [Event.llPrepareReceive CDC_OUT_EP (h.RxBuffer 0) CDC_DATA_HS_OUT_PACKET_SIZE,
     Event.llPrepareReceive CDC2_OUT_EP (h.RxBuffer 1) CDC_DATA_HS_OUT_PACKET_SIZE]
  else
    [Event.llPrepareReceive CDC_OUT_EP (h.RxBuffer 0) CDC_DATA_FS_OUT_PACKET_SIZE,
     Event.llPrepareReceive CDC2_OUT_EP (h.RxBuffer 1) CDC_DATA_FS_OUT_PACKET_SIZE]

/-- USBD_CDC_Init (lines 194-311).  `alloc` models the result of
USBD_malloc: `none` is allocation failure; `some h0` is a fresh block
whose prior content is h0 (the source does not initialize CmdOpCode,
CmdLength, ctrlInst, the buffers or the lengths, so they keep whatever
the allocator returned).  Returns the raw uint8_t `ret` (0 or 1). -/
def USBD_CDC_Init (pdev : USBD_HandleTypeDef)
    (alloc : Option USBD_CDC_HandleTypeDef) :
    USBD_HandleTypeDef × List Event × Nat :=
  match alloc with
  | none =>
      ({ pdev with pClassData := none }, initOpenEvents pdev.dev_speed, 1)
  | some h0 =>
      let hi := initInstances h0
      ({ pdev with pClassData := some hi.1 },
       initOpenEvents pdev.dev_speed ++ hi.2
         ++ initPrepareEvents pdev.dev_speed hi.1,
       0)

/-- USBD_CDC_DeInit (lines 320-348): close the six endpoints; if class
state exists, invoke the application DeInit callback for both instances
and free the class state.  Returns the raw uint8_t `ret` (always 0). -/
def USBD_CDC_DeInit (pdev : USBD_HandleTypeDef) :
    USBD_HandleTypeDef × List Event × Nat :=
  let closes := [Event.closeEP CDC_IN_EP, Event.closeEP CDC_OUT_EP,
                 Event.closeEP CDC_CMD_EP, Event.closeEP CDC2_IN_EP,
                 Event.closeEP CDC2_OUT_EP, Event.closeEP CDC2_CMD_EP]
  match pdev.pClassData with
  | none => (pdev, closes, 0)
  | some _ =>
      ({ pdev with pClassData := none },
       closes ++ [Event.appDeInit 0, Event.appDeInit 1], 0)

/-- USBD_CDC_Setup (lines 357-422).  The handler resolves the instance
from wIndex, unconditionally records it in hcdc->ctrlInst, then switches
on the request type: class requests with a data phase either invoke the
Control callback and send the staging buffer (device-to-host) or stage
the opcode/length and arm the control endpoint (host-to-device);
zero-length class requests invoke Control immediately; standard
GET_INTERFACE answers with the one-byte static `ifalt`; everything else
does nothing.  Always returns USBD_OK.  The source dereferences
pClassData without a check; the `none` branch here corresponds to
undefined behavior in C and is never reached from an initialized
device. -/
def USBD_CDC_Setup (pdev : USBD_HandleTypeDef) (req : USBD_SetupReqTypedef) :
    USBD_HandleTypeDef × List Event × USBD_Status :=
  let inst := classifyWIndex req.wIndex
  match pdev.pClassData with
  | none => (pdev, [], USBD_Status.OK)
  | some h0 =>
      let hcdc := { h0 with ctrlInst := inst }
      if req.bmRequest &&& USB_REQ_TYPE_MASK = USB_REQ_TYPE_CLASS then
        if req.wLength ≠ 0 then
          if req.bmRequest &&& 0x80 ≠ 0 then
            ({ pdev with pClassData := some hcdc },
             [Event.appControl inst req.bRequest Ptr.staging req.wLength,
              Event.ctlSendData Ptr.staging req.wLength],
             USBD_Status.OK)
          else
            let hcdc2 := { hcdc with CmdOpCode := req.bRequest,
                                     CmdLength := req.wLength }
            ({ pdev with pClassData := some hcdc2 },
             [Event.ctlPrepareRx Ptr.staging req.wLength],
             USBD_Status.OK)
        else
          ({ pdev with pClassData := some hcdc },
           [Event.appControl inst req.bRequest Ptr.reqBytes 0],
           USBD_Status.OK)
      else if req.bmRequest &&& USB_REQ_TYPE_MASK = USB_REQ_TYPE_STANDARD then
        if req.bRequest = USB_REQ_GET_INTERFACE then
          ({ pdev with pClassData := some hcdc },
           [Event.ctlSendData Ptr.ifaltCell 1],
           USBD_Status.OK)
        else
          ({ pdev with pClassData := some hcdc }, [], USBD_Status.OK)
      else
        ({ pdev with pClassData := some hcdc }, [], USBD_Status.OK)

/-- USBD_CDC_DataIn (lines 431-452): resolve the instance from the
endpoint number, clear its TxState and invoke the TxComplete callback;
USBD_FAIL when the class state is missing. -/
def USBD_CDC_DataIn (pdev : USBD_HandleTypeDef) (epnum : Nat) :
    USBD_HandleTypeDef × List Event × USBD_Status :=
  let inst := classifyEpnum epnum
  match pdev.pClassData with
  | none => (pdev, [], USBD_Status.FAIL)
  | some hcdc =>
      let hcdc2 := { hcdc with TxState := Function.update hcdc.TxState inst 0 }
      ({ pdev with pClassData := some hcdc2 },
       [Event.appTxComplete inst], USBD_Status.OK)

/-- USBD_CDC_DataOut (lines 461-485): resolve the instance from the
endpoint number, store the link-layer's received byte count (`rxSize`,
the USBD_LL_GetRxDataSize result) into RxLength[instance], and invoke
the Receive callback with the instance's RxBuffer and the address of its
RxLength cell.  No re-arming of the endpoint happens here.  The source
writes RxLength through the class pointer before its NULL check, so the
`none` branch corresponds to undefined behavior in C. -/
def USBD_CDC_DataOut (pdev : USBD_HandleTypeDef) (epnum rxSize : Nat) :
    USBD_HandleTypeDef × List Event × USBD_Status :=
  let inst := classifyEpnum epnum
  match pdev.pClassData with
  | none => (pdev, [], USBD_Status.FAIL)
  | some hcdc =>
      let hcdc2 := { hcdc with RxLength := Function.update hcdc.RxLength inst rxSize }
      ({ pdev with pClassData := some hcdc2 },
       [Event.appReceive inst (hcdc.RxBuffer inst) (Ptr.rxLenCell inst)],
       USBD_Status.OK)

/-- USBD_CDC_EP0_RxReady (lines 496-511): if callbacks are registered
and CmdOpCode is not the 0xFF sentinel, invoke the Control callback with
the recorded instance, opcode, staging buffer and length, then reset
CmdOpCode to 0xFF; otherwise do nothing.  The source dereferences
pClassData without a check; the `none` branch corresponds to undefined
behavior in C. -/
def USBD_CDC_EP0_RxReady (pdev : USBD_HandleTypeDef) :
    USBD_HandleTypeDef × List Event × USBD_Status :=
  match pdev.pClassData with
  | none => (pdev, [], USBD_Status.OK)
  | some hcdc =>
      if pdev.pUserData ≠ none ∧ hcdc.CmdOpCode ≠ 0xFF then
        let hcdc2 := { hcdc with CmdOpCode := 0xFF }
        ({ pdev with pClassData := some hcdc2 },
         [Event.appControl hcdc.ctrlInst hcdc.CmdOpCode Ptr.staging
            hcdc.CmdLength],
         USBD_Status.OK)
      else
        (pdev, [], USBD_Status.OK)

/-- USBD_CDC_RegisterInterface (lines 573-585): reject a NULL callback
structure with USBD_FAIL and no state change; otherwise store it in
pUserData and return USBD_OK. -/
def USBD_CDC_RegisterInterface (pdev : USBD_HandleTypeDef)
    (fops : Option Nat) : USBD_HandleTypeDef × USBD_Status :=
  match fops with
  | none => (pdev, USBD_Status.FAIL)
  | some f => ({ pdev with pUserData := some f }, USBD_Status.OK)

/-- USBD_CDC_SetTxBuffer (lines 593-604): record the application's
transmit buffer and length for the instance.  The source dereferences
pClassData without a check. -/
def USBD_CDC_SetTxBuffer (pdev : USBD_HandleTypeDef) (inst : Nat)
    (pbuff : Ptr) (length : Nat) : USBD_HandleTypeDef × USBD_Status :=
  match pdev.pClassData with
  | none => (pdev, USBD_Status.OK)
  | some hcdc =>
      let hcdc2 := { hcdc with TxBuffer := Function.update hcdc.TxBuffer inst pbuff,
                               TxLength := Function.update hcdc.TxLength inst length }
      ({ pdev with pClassData := some hcdc2 }, USBD_Status.OK)

/-- USBD_CDC_SetRxBuffer (lines 613-622): record the application's
receive buffer for the instance. -/
def USBD_CDC_SetRxBuffer (pdev : USBD_HandleTypeDef) (inst : Nat)
    (pbuff : Ptr) : USBD_HandleTypeDef × USBD_Status :=
  match pdev.pClassData with
  | none => (pdev, USBD_Status.OK)
  | some hcdc =>
      let hcdc2 := { hcdc with RxBuffer := Function.update hcdc.RxBuffer inst pbuff }
      ({ pdev with pClassData := some hcdc2 }, USBD_Status.OK)

/-- USBD_CDC_TransmitPacket (lines 631-665): pick the bulk-IN endpoint
for the instance; if no transmit is in flight, mark the instance busy
and submit its (TxBuffer, TxLength) to the link layer, returning
USBD_OK; otherwise return USBD_BUSY with no side effect.  USBD_FAIL when
the class state is missing. -/
def USBD_CDC_TransmitPacket (pdev : USBD_HandleTypeDef) (inst : Nat) :
    USBD_HandleTypeDef × List Event × USBD_Status :=
  let ep := if inst ≠ 0 then CDC2_IN_EP else CDC_IN_EP
  match pdev.pClassData with
  | none => (pdev, [], USBD_Status.FAIL)
  | some hcdc =>
      if hcdc.TxState inst = 0 then
        let hcdc2 := { hcdc with TxState := Function.update hcdc.TxState inst 1 }
        ({ pdev with pClassData := some hcdc2 },
         [Event.llTransmit ep (hcdc.TxBuffer inst) (hcdc.TxLength inst)],
         USBD_Status.OK)
      else
        (pdev, [], USBD_Status.BUSY)

/-- USBD_CDC_ReceivePacket (lines 674-708): pick the bulk-OUT endpoint
for the instance and re-arm it with the instance's RxBuffer at the
speed-appropriate packet size; the device state is not modified.
USBD_FAIL when the class state is missing. -/
def USBD_CDC_ReceivePacket (pdev : USBD_HandleTypeDef) (inst : Nat) :
    USBD_HandleTypeDef × List Event × USBD_Status :=
  let ep := if inst ≠ 0 then CDC2_OUT_EP else CDC_OUT_EP
  match pdev.pClassData with
  | none => (pdev, [], USBD_Status.FAIL)
  | some hcdc =>
      if pdev.dev_speed = USBD_Speed.HIGH then
        (pdev,
         [Event.llPrepareReceive ep (hcdc.RxBuffer inst)
            CDC_DATA_HS_OUT_PACKET_SIZE],
         USBD_Status.OK)
      else
        (pdev,
         [Event.llPrepareReceive ep (hcdc.RxBuffer inst)
            CDC_DATA_FS_OUT_PACKET_SIZE],
         USBD_Status.OK)

/-! ## Concrete fixtures used to instantiate the theorems -/

/-- A zero-filled class handle, modelling an allocation whose memory
content is all zero bytes (null pointers, zero counters). -/
def zeroHandle : USBD_CDC_HandleTypeDef :=
  { CmdOpCode := 0, CmdLength := 0, ctrlInst := 0,
    TxBuffer := fun _ => Ptr.null, RxBuffer := fun _ => Ptr.null,
    TxLength := fun _ => 0, RxLength := fun _ => 0,
    TxState := fun _ => 0, RxState := fun _ => 0 }

/-- A concrete initialized class handle: no transmit in flight, the
command opcode at its sentinel, application buffers registered. -/
def sampleHandle : USBD_CDC_HandleTypeDef :=
  { CmdOpCode := 0xFF, CmdLength := 0, ctrlInst := 0,
    TxBuffer := fun _ => Ptr.appBuf 7, RxBuffer := fun _ => Ptr.appBuf 9,
    TxLength := fun _ => 5, RxLength := fun _ => 0,
    TxState := fun _ => 0, RxState := fun _ => 0 }

/-- A concrete full-speed device with class state allocated and the
application callback set registered. -/
def sampleDev : USBD_HandleTypeDef :=
  { dev_speed := USBD_Speed.FULL, pClassData := some sampleHandle,
    pUserData := some 1 }

/-- A concrete device before initialization: callbacks registered, no
class state yet. -/
def freshDev : USBD_HandleTypeDef :=
  { dev_speed := USBD_Speed.FULL, pClassData := none, pUserData := some 1 }

/-! ## Helper lemmas -/

/-- The nonzero-mask test of the source agrees with testing the mask's
bit: CDC2_EP_MASK is the single bit 2. -/
theorem and_mask_ne_zero_iff (n : Nat) :
    n &&& CDC2_EP_MASK ≠ 0 ↔ n.testBit 2 := by
  have h2 : CDC2_EP_MASK = 2 ^ 2 := rfl
  rw [h2, Nat.and_two_pow]
  cases hb : n.testBit 2 <;> simp [hb]

/-! ## Claim theorems -/

/-- Claim C2: instance classification is pure and total.  For every
endpoint address the resolved instance id is 1 exactly when the reserved
second-instance bit (bit 2, the CDC2_EP_MASK bit) is set, else 0; for
every control-request index the resolved id is 1 exactly when the index
is one of instance 1's two interface numbers, else 0; there is no error
case. -/
theorem classify_total_spec (epnum wIdx : Nat) :
    (classifyEpnum epnum = 1 ↔ epnum.testBit 2) ∧
    (classifyEpnum epnum = 0 ↔ ¬ epnum.testBit 2) ∧
    (classifyWIndex wIdx = 1 ↔
      (wIdx = USB_CDC_CIF_NUM1 ∨ wIdx = USB_CDC_DIF_NUM1)) ∧
    (classifyWIndex wIdx = 0 ↔
      ¬ (wIdx = USB_CDC_CIF_NUM1 ∨ wIdx = USB_CDC_DIF_NUM1)) := by
  refine ⟨?_, ?_, ?_, ?_⟩
  · rw [← and_mask_ne_zero_iff]
    unfold classifyEpnum
    split <;> simp_all
  · rw [← and_mask_ne_zero_iff]
    unfold classifyEpnum
    split <;> simp_all
  · unfold classifyWIndex
    split <;> simp_all
  · unfold classifyWIndex
    split <;> simp_all

/-- Claim C2 witness: the classification evaluated at instance 1's
bulk-IN endpoint address and instance 1's control interface number. -/
theorem classify_total_spec_witness :
    (classifyEpnum CDC2_IN_EP = 1 ↔ Nat.testBit CDC2_IN_EP 2) ∧
    (classifyEpnum CDC2_IN_EP = 0 ↔ ¬ Nat.testBit CDC2_IN_EP 2) ∧
    (classifyWIndex USB_CDC_CIF_NUM1 = 1 ↔
      (USB_CDC_CIF_NUM1 = USB_CDC_CIF_NUM1 ∨
       USB_CDC_CIF_NUM1 = USB_CDC_DIF_NUM1)) ∧
    (classifyWIndex USB_CDC_CIF_NUM1 = 0 ↔
      ¬ (USB_CDC_CIF_NUM1 = USB_CDC_CIF_NUM1 ∨
         USB_CDC_CIF_NUM1 = USB_CDC_DIF_NUM1)) :=
  classify_total_spec CDC2_IN_EP USB_CDC_CIF_NUM1

/-- Claim C9: USBD_CDC_RegisterInterface rejects a NULL callback
structure with Fail and leaves the whole device state (in particular
pUserData) unchanged, and stores any non-NULL structure, returning
Ok. -/
theorem registerInterface_spec (pdev : USBD_HandleTypeDef) (f : Nat) :
    USBD_CDC_RegisterInterface pdev none = (pdev, USBD_Status.FAIL) ∧
    (USBD_CDC_RegisterInterface pdev none).1.pUserData = pdev.pUserData ∧
    USBD_CDC_RegisterInterface pdev (some f) =
      ({ pdev with pUserData := some f }, USBD_Status.OK) ∧
    (USBD_CDC_RegisterInterface pdev (some f)).1.pUserData = some f :=
  ⟨rfl, rfl, rfl, rfl⟩

/-- Claim C1: with the class state allocated and instance 0 or 1,
USBD_CDC_TransmitPacket returns Busy with no link-layer call and an
unchanged device when the instance's TxState is busy; when idle it
marks the instance busy, submits exactly its (TxBuffer, TxLength) on
that instance's bulk-IN endpoint, and returns Ok. -/
theorem transmitPacket_spec (pdev : USBD_HandleTypeDef)
    (h : USBD_CDC_HandleTypeDef) (inst : Nat)
    (hcd : pdev.pClassData = some h) (hinst : inst < 2) :
    (h.TxState inst ≠ 0 →
      USBD_CDC_TransmitPacket pdev inst = (pdev, [], USBD_Status.BUSY)) ∧
    (h.TxState inst = 0 →
      USBD_CDC_TransmitPacket pdev inst =
        ({ pdev with pClassData := (some
             ({ h with TxState := Function.update h.TxState inst 1 })) },
         [Event.llTransmit (if inst = 1 then CDC2_IN_EP else CDC_IN_EP)
            (h.TxBuffer inst) (h.TxLength inst)],
         USBD_Status.OK) ∧
      Function.update h.TxState inst 1 inst = 1) := by
  have hep : (if inst ≠ 0 then CDC2_IN_EP else CDC_IN_EP)
      = (if inst = 1 then CDC2_IN_EP else CDC_IN_EP) := by
    interval_cases inst <;> simp
  constructor
  · intro hbusy
    simp [USBD_CDC_TransmitPacket, hcd, hbusy]
  · intro hidle
    refine ⟨?_, by simp⟩
    simp [USBD_CDC_TransmitPacket, hcd, hidle, hep]

/-- Claim C1 witness: instantiated on the concrete initialized device,
instance 0 (whose TxState is idle). -/
theorem transmitPacket_spec_witness :
    sampleDev.pClassData = some sampleHandle ∧ 0 < 2 ∧
    ((sampleHandle.TxState 0 ≠ 0 →
      USBD_CDC_TransmitPacket sampleDev 0 =
        (sampleDev, [], USBD_Status.BUSY)) ∧
    (sampleHandle.TxState 0 = 0 →
      USBD_CDC_TransmitPacket sampleDev 0 =
        ({ sampleDev with pClassData := (some
             ({ sampleHandle with
                 TxState := Function.update sampleHandle.TxState 0 1 })) },
         [Event.llTransmit (if 0 = 1 then CDC2_IN_EP else CDC_IN_EP)
            (sampleHandle.TxBuffer 0) (sampleHandle.TxLength 0)],
         USBD_Status.OK) ∧
      Function.update sampleHandle.TxState 0 1 0 = 1)) :=
  ⟨rfl, by decide, transmitPacket_spec sampleDev sampleHandle 0 rfl (by decide)⟩

/-- Claim C5: a class Device-to-Host setup with nonzero wLength invokes
the application Control callback with the resolved instance, the
request code, the staging buffer and the requested length, and then
sends exactly that many bytes of the staging buffer over the control
endpoint; the only state change is the recorded active instance. -/
theorem setup_classIn_spec (pdev : USBD_HandleTypeDef)
    (h : USBD_CDC_HandleTypeDef) (req : USBD_SetupReqTypedef)
    (hcd : pdev.pClassData = some h)
    (hclass : req.bmRequest &&& USB_REQ_TYPE_MASK = USB_REQ_TYPE_CLASS)
    (hdir : req.bmRequest &&& 0x80 ≠ 0)
    (hlen : req.wLength ≠ 0) :
    USBD_CDC_Setup pdev req =
      ({ pdev with pClassData := (some
           ({ h with ctrlInst := classifyWIndex req.wIndex })) },
       [Event.appControl (classifyWIndex req.wIndex) req.bRequest
          Ptr.staging req.wLength,
        Event.ctlSendData Ptr.staging req.wLength],
       USBD_Status.OK) := by
  simp [USBD_CDC_Setup, hcd, hclass, hdir, hlen]

/-- Claim C5 witness: the spec scenario, a class IN request 0x21 of
length 7 addressed to instance 0's data interface (wIndex 1). -/
theorem setup_classIn_spec_witness :
    sampleDev.pClassData = some sampleHandle ∧
    (0xA1 &&& USB_REQ_TYPE_MASK = USB_REQ_TYPE_CLASS) ∧
    (0xA1 &&& 0x80 ≠ 0) ∧ (7 ≠ 0) ∧
    USBD_CDC_Setup sampleDev
        { bmRequest := 0xA1, bRequest := 0x21, wValue := 0,
          wIndex := 1, wLength := 7 } =
      ({ sampleDev with pClassData := (some
           ({ sampleHandle with ctrlInst := classifyWIndex 1 })) },
       [Event.appControl (classifyWIndex 1) 0x21 Ptr.staging 7,
        Event.ctlSendData Ptr.staging 7],
       USBD_Status.OK) :=
  ⟨rfl, by decide, by decide, by decide,
   setup_classIn_spec sampleDev sampleHandle
     { bmRequest := 0xA1, bRequest := 0x21, wValue := 0,
       wIndex := 1, wLength := 7 }
     rfl (by decide) (by decide) (by decide)⟩

/-- Claim C10: a control-data-ready event with no callback set
registered invokes nothing and leaves the staged opcode pending; after
a callback set is registered, a later control-data-ready event still
delivers the staged opcode and only then resets it to the sentinel. -/
theorem ep0RxReady_unregistered_spec (pdev : USBD_HandleTypeDef)
    (h : USBD_CDC_HandleTypeDef) (f : Nat)
    (hcd : pdev.pClassData = some h)
    (hud : pdev.pUserData = none)
    (hop : h.CmdOpCode ≠ 0xFF) :
    USBD_CDC_EP0_RxReady pdev = (pdev, [], USBD_Status.OK) ∧
    USBD_CDC_EP0_RxReady (USBD_CDC_RegisterInterface pdev (some f)).1 =
      ({ pdev with pUserData := some f,
                   pClassData := (some ({ h with CmdOpCode := 0xFF })) },
       [Event.appControl h.ctrlInst h.CmdOpCode Ptr.staging h.CmdLength],
       USBD_Status.OK) := by
  constructor
  · simp [USBD_CDC_EP0_RxReady, hcd, hud]
  · simp [USBD_CDC_EP0_RxReady, USBD_CDC_RegisterInterface, hcd, hop]

/-- A concrete handle with a staged command opcode awaiting its data
phase (opcode 0x22, 7 bytes, addressed to instance 1). -/
def stagedHandle : USBD_CDC_HandleTypeDef :=
  { sampleHandle with CmdOpCode := 0x22, CmdLength := 7, ctrlInst := 1 }

/-- A concrete device with class state allocated, a staged opcode, and
no application callback set registered. -/
def unregDev : USBD_HandleTypeDef :=
  { dev_speed := USBD_Speed.FULL, pClassData := some stagedHandle,
    pUserData := none }

/-- Claim C10 witness: the concrete unregistered device with staged
opcode 0x22, then registration of callback set 5 and the delivering
data-ready event. -/
theorem ep0RxReady_unregistered_spec_witness :
    unregDev.pClassData = some stagedHandle ∧
    unregDev.pUserData = none ∧
    stagedHandle.CmdOpCode ≠ 0xFF ∧
    (USBD_CDC_EP0_RxReady unregDev = (unregDev, [], USBD_Status.OK) ∧
     USBD_CDC_EP0_RxReady (USBD_CDC_RegisterInterface unregDev (some 5)).1 =
       ({ unregDev with pUserData := some 5,
                        pClassData := (some ({ stagedHandle with CmdOpCode := 0xFF })) },
        [Event.appControl stagedHandle.ctrlInst stagedHandle.CmdOpCode
           Ptr.staging stagedHandle.CmdLength],
        USBD_Status.OK)) :=
  ⟨rfl, rfl, by decide,
   ep0RxReady_unregistered_spec unregDev stagedHandle 5 rfl rfl (by decide)⟩

/-- Claim C3: a class Host-to-Device setup with nonzero wLength records
the opcode and length and arms the control endpoint without invoking the
application control callback; a control-data-ready event while the
recorded opcode is not the 0xFF sentinel delivers the recorded active
instance, opcode, staging buffer and length to the Control callback
exactly once and resets the opcode to the sentinel; a second
control-data-ready event with no intervening setup invokes nothing and
changes nothing. -/
theorem setup_classOut_staged_spec (pdev : USBD_HandleTypeDef)
    (h : USBD_CDC_HandleTypeDef) (f : Nat) (req : USBD_SetupReqTypedef)
    (hcd : pdev.pClassData = some h) (hud : pdev.pUserData = some f)
    (hclass : req.bmRequest &&& USB_REQ_TYPE_MASK = USB_REQ_TYPE_CLASS)
    (hdir : req.bmRequest &&& 0x80 = 0)
    (hlen : req.wLength ≠ 0) :
    USBD_CDC_Setup pdev req =
      ({ pdev with pClassData := (some
           ({ h with ctrlInst := classifyWIndex req.wIndex,
                     CmdOpCode := req.bRequest,
                     CmdLength := req.wLength })) },
       [Event.ctlPrepareRx Ptr.staging req.wLength],
       USBD_Status.OK) ∧
    (req.bRequest ≠ 0xFF →
      USBD_CDC_EP0_RxReady (USBD_CDC_Setup pdev req).1 =
        ({ pdev with pClassData := (some
             ({ h with ctrlInst := classifyWIndex req.wIndex,
                       CmdOpCode := 0xFF,
                       CmdLength := req.wLength })) },
         [Event.appControl (classifyWIndex req.wIndex) req.bRequest
            Ptr.staging req.wLength],
         USBD_Status.OK) ∧
      USBD_CDC_EP0_RxReady
          (USBD_CDC_EP0_RxReady (USBD_CDC_Setup pdev req).1).1 =
        ((USBD_CDC_EP0_RxReady (USBD_CDC_Setup pdev req).1).1, [],
         USBD_Status.OK)) := by
  have h1 : USBD_CDC_Setup pdev req =
      ({ pdev with pClassData := (some
           ({ h with ctrlInst := classifyWIndex req.wIndex,
                     CmdOpCode := req.bRequest,
                     CmdLength := req.wLength })) },
       [Event.ctlPrepareRx Ptr.staging req.wLength],
       USBD_Status.OK) := by
    simp [USBD_CDC_Setup, hcd, hclass, hdir, hlen]
  refine ⟨h1, fun hne => ?_⟩
  have h2 : USBD_CDC_EP0_RxReady (USBD_CDC_Setup pdev req).1 =
      ({ pdev with pClassData := (some
           ({ h with ctrlInst := classifyWIndex req.wIndex,
                     CmdOpCode := 0xFF,
                     CmdLength := req.wLength })) },
       [Event.appControl (classifyWIndex req.wIndex) req.bRequest
          Ptr.staging req.wLength],
       USBD_Status.OK) := by
    rw [h1]
    simp [USBD_CDC_EP0_RxReady, hud, hne]
  refine ⟨h2, ?_⟩
  rw [h2]
  simp [USBD_CDC_EP0_RxReady]

/-- Claim C3 witness: a concrete class OUT request, opcode 0x20 with an
8-byte data phase, on the concrete initialized device. -/
theorem setup_classOut_staged_spec_witness :
    sampleDev.pClassData = some sampleHandle ∧
    sampleDev.pUserData = some 1 ∧
    (0x21 &&& USB_REQ_TYPE_MASK = USB_REQ_TYPE_CLASS) ∧
    (0x21 &&& 0x80 = 0) ∧ (8 ≠ 0) ∧
    (USBD_CDC_Setup sampleDev
        { bmRequest := 0x21, bRequest := 0x20, wValue := 0,
          wIndex := 0, wLength := 8 } =
      ({ sampleDev with pClassData := (some
           ({ sampleHandle with ctrlInst := classifyWIndex 0,
                                CmdOpCode := 0x20,
                                CmdLength := 8 })) },
       [Event.ctlPrepareRx Ptr.staging 8],
       USBD_Status.OK) ∧
    ((0x20 : Nat) ≠ 0xFF →
      USBD_CDC_EP0_RxReady (USBD_CDC_Setup sampleDev
          { bmRequest := 0x21, bRequest := 0x20, wValue := 0,
            wIndex := 0, wLength := 8 }).1 =
        ({ sampleDev with pClassData := (some
             ({ sampleHandle with ctrlInst := classifyWIndex 0,
                                  CmdOpCode := 0xFF,
                                  CmdLength := 8 })) },
         [Event.appControl (classifyWIndex 0) 0x20 Ptr.staging 8],
         USBD_Status.OK) ∧
      USBD_CDC_EP0_RxReady
          (USBD_CDC_EP0_RxReady (USBD_CDC_Setup sampleDev
            { bmRequest := 0x21, bRequest := 0x20, wValue := 0,
              wIndex := 0, wLength := 8 }).1).1 =
        ((USBD_CDC_EP0_RxReady (USBD_CDC_Setup sampleDev
            { bmRequest := 0x21, bRequest := 0x20, wValue := 0,
              wIndex := 0, wLength := 8 }).1).1, [],
         USBD_Status.OK))) :=
  ⟨rfl, rfl, by decide, by decide, by decide,
   setup_classOut_staged_spec sampleDev sampleHandle 1
     { bmRequest := 0x21, bRequest := 0x20, wValue := 0,
       wIndex := 0, wLength := 8 }
     rfl rfl (by decide) (by decide) (by decide)⟩

/-- Claim C6: the data-out handler stores the link-layer's received byte
count into the instance's rxLength and synchronously invokes the Receive
callback with the instance's rxBuffer and the address of that rxLength
cell, never re-arming the endpoint; only an explicit
USBD_CDC_ReceivePacket call re-arms the instance's bulk-OUT endpoint
with its rxBuffer at the speed-appropriate packet size, without touching
the device state (hence idempotent). -/
theorem dataOut_receivePacket_spec (pdev : USBD_HandleTypeDef)
    (h : USBD_CDC_HandleTypeDef) (f : Nat) (epnum rxSize : Nat)
    (hcd : pdev.pClassData = some h) (_hud : pdev.pUserData = some f) :
    USBD_CDC_DataOut pdev epnum rxSize =
      ({ pdev with pClassData := (some
           ({ h with RxLength := Function.update h.RxLength
                       (classifyEpnum epnum) rxSize })) },
       [Event.appReceive (classifyEpnum epnum)
          (h.RxBuffer (classifyEpnum epnum))
          (Ptr.rxLenCell (classifyEpnum epnum))],
       USBD_Status.OK) ∧
    Function.update h.RxLength (classifyEpnum epnum) rxSize
        (classifyEpnum epnum) = rxSize ∧
    (∀ e ∈ (USBD_CDC_DataOut pdev epnum rxSize).2.1,
       ∀ a b m, e ≠ Event.llPrepareReceive a b m) ∧
    (∀ inst : Nat, (USBD_CDC_ReceivePacket pdev inst).1 = pdev) ∧
    (∀ inst : Nat, inst < 2 →
       (USBD_CDC_ReceivePacket pdev inst).2.1 =
         [Event.llPrepareReceive
            (if inst = 1 then CDC2_OUT_EP else CDC_OUT_EP)
            (h.RxBuffer inst)
            (if pdev.dev_speed = USBD_Speed.HIGH
             then CDC_DATA_HS_OUT_PACKET_SIZE
             else CDC_DATA_FS_OUT_PACKET_SIZE)] ∧
       (USBD_CDC_ReceivePacket pdev inst).2.2 = USBD_Status.OK) ∧
    (∀ inst : Nat,
       USBD_CDC_ReceivePacket (USBD_CDC_ReceivePacket pdev inst).1 inst =
         USBD_CDC_ReceivePacket pdev inst) := by
  have hrp : ∀ inst : Nat, (USBD_CDC_ReceivePacket pdev inst).1 = pdev := by
    intro inst
    cases hsp : pdev.dev_speed <;>
      simp [USBD_CDC_ReceivePacket, hcd, hsp]
  refine ⟨?_, by simp, ?_, hrp, ?_, ?_⟩
  · simp [USBD_CDC_DataOut, hcd]
  · intro e he a b m
    simp [USBD_CDC_DataOut, hcd] at he
    simp [he]
  · intro inst hinst
    interval_cases inst <;>
      cases hsp : pdev.dev_speed <;>
        simp [USBD_CDC_ReceivePacket, hcd, hsp]
  · intro inst
    rw [hrp inst]

/-- Claim C6 witness: a receive completion of 12 bytes on instance 1's
bulk-OUT endpoint of the concrete initialized device. -/
theorem dataOut_receivePacket_spec_witness :
    sampleDev.pClassData = some sampleHandle ∧
    sampleDev.pUserData = some 1 ∧
    (USBD_CDC_DataOut sampleDev CDC2_OUT_EP 12 =
      ({ sampleDev with pClassData := (some
           ({ sampleHandle with RxLength := Function.update sampleHandle.RxLength (classifyEpnum CDC2_OUT_EP) 12 })) },
       [Event.appReceive (classifyEpnum CDC2_OUT_EP)
          (sampleHandle.RxBuffer (classifyEpnum CDC2_OUT_EP))
          (Ptr.rxLenCell (classifyEpnum CDC2_OUT_EP))],
       USBD_Status.OK) ∧
    Function.update sampleHandle.RxLength (classifyEpnum CDC2_OUT_EP) 12
        (classifyEpnum CDC2_OUT_EP) = 12 ∧
    (∀ e ∈ (USBD_CDC_DataOut sampleDev CDC2_OUT_EP 12).2.1,
       ∀ a b m, e ≠ Event.llPrepareReceive a b m) ∧
    (∀ inst : Nat, (USBD_CDC_ReceivePacket sampleDev inst).1 = sampleDev) ∧
    (∀ inst : Nat, inst < 2 →
       (USBD_CDC_ReceivePacket sampleDev inst).2.1 =
         [Event.llPrepareReceive
            (if inst = 1 then CDC2_OUT_EP else CDC_OUT_EP)
            (sampleHandle.RxBuffer inst)
            (if sampleDev.dev_speed = USBD_Speed.HIGH
             then CDC_DATA_HS_OUT_PACKET_SIZE
             else CDC_DATA_FS_OUT_PACKET_SIZE)] ∧
       (USBD_CDC_ReceivePacket sampleDev inst).2.2 = USBD_Status.OK) ∧
    (∀ inst : Nat,
       USBD_CDC_ReceivePacket (USBD_CDC_ReceivePacket sampleDev inst).1 inst =
         USBD_CDC_ReceivePacket sampleDev inst)) :=
  ⟨rfl, rfl,
   dataOut_receivePacket_spec sampleDev sampleHandle 1 CDC2_OUT_EP 12 rfl rfl⟩

/-- Claim C8 (amended): the setup handler returns Ok for every setup
packet; a standard GET_INTERFACE request responds with exactly one byte
whose value — the never-written static alternate-setting byte — is 0;
a standard SET_INTERFACE request, any other standard request, and any
request of unrecognized type are accepted with no response, no callback
and no state change apart from the unconditional recording of the
resolved active instance that every setup performs. -/
theorem setup_failOpen_spec (pdev : USBD_HandleTypeDef)
    (h : USBD_CDC_HandleTypeDef) (req : USBD_SetupReqTypedef)
    (hcd : pdev.pClassData = some h) :
    (USBD_CDC_Setup pdev req).2.2 = USBD_Status.OK ∧
    (req.bmRequest &&& USB_REQ_TYPE_MASK = USB_REQ_TYPE_STANDARD →
      req.bRequest = USB_REQ_GET_INTERFACE →
      (USBD_CDC_Setup pdev req).2.1 = [Event.ctlSendData Ptr.ifaltCell 1] ∧
      ifalt = 0) ∧
    (req.bmRequest &&& USB_REQ_TYPE_MASK = USB_REQ_TYPE_STANDARD →
      req.bRequest ≠ USB_REQ_GET_INTERFACE →
      USBD_CDC_Setup pdev req =
        ({ pdev with pClassData := (some
             ({ h with ctrlInst := classifyWIndex req.wIndex })) },
         [], USBD_Status.OK)) ∧
    (req.bmRequest &&& USB_REQ_TYPE_MASK ≠ USB_REQ_TYPE_CLASS →
      req.bmRequest &&& USB_REQ_TYPE_MASK ≠ USB_REQ_TYPE_STANDARD →
      USBD_CDC_Setup pdev req =
        ({ pdev with pClassData := (some
             ({ h with ctrlInst := classifyWIndex req.wIndex })) },
         [], USBD_Status.OK)) := by
  refine ⟨?_, ?_, ?_, ?_⟩
  · unfold USBD_CDC_Setup
    rw [hcd]
    split_ifs <;> rfl
  · intro hstd hget
    unfold USBD_CDC_Setup
    rw [hcd]
    simp [hstd, hget, USB_REQ_TYPE_STANDARD, USB_REQ_TYPE_CLASS,
          USB_REQ_GET_INTERFACE, ifalt]
  · intro hstd hget
    unfold USBD_CDC_Setup
    rw [hcd]
    rw [USB_REQ_GET_INTERFACE] at hget
    simp [hstd, hget, USB_REQ_TYPE_STANDARD, USB_REQ_TYPE_CLASS,
          USB_REQ_GET_INTERFACE]
  · intro hnc hns
    unfold USBD_CDC_Setup
    rw [hcd]
    simp [hnc, hns]

/-- Claim C8 witness: a vendor-type request (type bits 0x40) on the
concrete initialized device, plus the GET_INTERFACE and SET_INTERFACE
conjuncts instantiated. -/
theorem setup_failOpen_spec_witness :
    sampleDev.pClassData = some sampleHandle ∧
    ((USBD_CDC_Setup sampleDev
        { bmRequest := 0x41, bRequest := 0x07, wValue := 0,
          wIndex := 0, wLength := 0 }).2.2 = USBD_Status.OK ∧
    ((0x41 &&& USB_REQ_TYPE_MASK = USB_REQ_TYPE_STANDARD) →
      (0x07 : Nat) = USB_REQ_GET_INTERFACE →
      (USBD_CDC_Setup sampleDev
        { bmRequest := 0x41, bRequest := 0x07, wValue := 0,
          wIndex := 0, wLength := 0 }).2.1 =
        [Event.ctlSendData Ptr.ifaltCell 1] ∧ ifalt = 0) ∧
    ((0x41 &&& USB_REQ_TYPE_MASK = USB_REQ_TYPE_STANDARD) →
      (0x07 : Nat) ≠ USB_REQ_GET_INTERFACE →
      USBD_CDC_Setup sampleDev
        { bmRequest := 0x41, bRequest := 0x07, wValue := 0,
          wIndex := 0, wLength := 0 } =
        ({ sampleDev with pClassData := (some
             ({ sampleHandle with ctrlInst := classifyWIndex 0 })) },
         [], USBD_Status.OK)) ∧
    ((0x41 &&& USB_REQ_TYPE_MASK ≠ USB_REQ_TYPE_CLASS) →
      (0x41 &&& USB_REQ_TYPE_MASK ≠ USB_REQ_TYPE_STANDARD) →
      USBD_CDC_Setup sampleDev
        { bmRequest := 0x41, bRequest := 0x07, wValue := 0,
          wIndex := 0, wLength := 0 } =
        ({ sampleDev with pClassData := (some
             ({ sampleHandle with ctrlInst := classifyWIndex 0 })) },
         [], USBD_Status.OK))) :=
  ⟨rfl,
   setup_failOpen_spec sampleDev sampleHandle
     { bmRequest := 0x41, bRequest := 0x07, wValue := 0,
       wIndex := 0, wLength := 0 } rfl⟩

/-- Claim C8 counterexample: a standard SET_INTERFACE request addressed
to instance 1's control interface is not free of state change — it
overwrites the recorded active control instance (ctrlInst) from 0 to 1,
because every setup unconditionally records the resolved instance. -/
theorem setup_setInterface_cex :
    (USBD_CDC_Setup sampleDev
        { bmRequest := 0x01, bRequest := USB_REQ_SET_INTERFACE, wValue := 0,
          wIndex := USB_CDC_CIF_NUM1,
          wLength := 0 }).1.pClassData.map USBD_CDC_HandleTypeDef.ctrlInst
      = some 1 ∧
    sampleDev.pClassData.map USBD_CDC_HandleTypeDef.ctrlInst = some 0 ∧
    (USBD_CDC_Setup sampleDev
        { bmRequest := 0x01, bRequest := USB_REQ_SET_INTERFACE, wValue := 0,
          wIndex := USB_CDC_CIF_NUM1,
          wLength := 0 }).2.1 = [] := by
  refine ⟨rfl, rfl, rfl⟩

/-- Claim C7: when allocation of the class state fails, init returns the
code decoding to Fail, leaves the class state unallocated (so no
transmit-state writes, no application init callbacks and no receive
arming can have happened — the emitted calls are exactly the six
endpoint opens), and the six endpoints opened before the allocation are
left open (no close is emitted).  On allocation success init returns the
code decoding to Ok, clears both instances' TxState, invokes the
application init callback once per instance, and arms both bulk-OUT
endpoints with the handle's rxBuffers at the negotiated packet size. -/
theorem init_spec (pdev : USBD_HandleTypeDef) (f : Nat)
    (h0 : USBD_CDC_HandleTypeDef) (_hud : pdev.pUserData = some f) :
    (USBD_CDC_Init pdev none =
       ({ pdev with pClassData := none }, initOpenEvents pdev.dev_speed, 1) ∧
     decodeStatus 1 = USBD_Status.FAIL ∧
     (initOpenEvents pdev.dev_speed).length = 6 ∧
     (∀ e ∈ initOpenEvents pdev.dev_speed, ∃ a t m, e = Event.openEP a t m)) ∧
    (USBD_CDC_Init pdev (some h0) =
       ({ pdev with pClassData := some (initInstances h0).1 },
        initOpenEvents pdev.dev_speed ++ [Event.appInit 0, Event.appInit 1]
          ++ initPrepareEvents pdev.dev_speed (initInstances h0).1,
        0) ∧
     decodeStatus 0 = USBD_Status.OK ∧
     (initInstances h0).1.TxState 0 = 0 ∧
     (initInstances h0).1.TxState 1 = 0 ∧
     initPrepareEvents pdev.dev_speed (initInstances h0).1 =
       [Event.llPrepareReceive CDC_OUT_EP (h0.RxBuffer 0)
          (if pdev.dev_speed = USBD_Speed.HIGH
           then CDC_DATA_HS_OUT_PACKET_SIZE
           else CDC_DATA_FS_OUT_PACKET_SIZE),
        Event.llPrepareReceive CDC2_OUT_EP (h0.RxBuffer 1)
          (if pdev.dev_speed = USBD_Speed.HIGH
           then CDC_DATA_HS_OUT_PACKET_SIZE
           else CDC_DATA_FS_OUT_PACKET_SIZE)]) := by
  have hinstEq : initInstances h0 =
      ({ h0 with
          TxState := Function.update (Function.update h0.TxState 0 0) 1 0,
          RxState := Function.update (Function.update h0.RxState 0 0) 1 0 },
       [Event.appInit 0, Event.appInit 1]) := rfl
  refine ⟨⟨rfl, rfl, ?_, ?_⟩, ?_, rfl, ?_, ?_, ?_⟩
  · cases hsp : pdev.dev_speed <;> simp [initOpenEvents, hsp]
  · intro e he
    cases hsp : pdev.dev_speed <;>
      simp [initOpenEvents, hsp] at he <;>
      rcases he with h1 | h1 | h1 | h1 | h1 | h1 <;>
      exact ⟨_, _, _, h1⟩
  · rfl
  · rw [hinstEq]
    simp [Function.update]
  · rw [hinstEq]
    simp [Function.update]
  · rw [hinstEq]
    cases hsp : pdev.dev_speed <;> simp [initPrepareEvents, hsp]

/-- Claim C7 witness: initialization of the concrete registered
full-speed device, with both the failing and the successful allocation
result. -/
theorem init_spec_witness :
    freshDev.pUserData = some 1 ∧
    ((USBD_CDC_Init freshDev none =
       ({ freshDev with pClassData := none }, initOpenEvents freshDev.dev_speed, 1) ∧
     decodeStatus 1 = USBD_Status.FAIL ∧
     (initOpenEvents freshDev.dev_speed).length = 6 ∧
     (∀ e ∈ initOpenEvents freshDev.dev_speed, ∃ a t m, e = Event.openEP a t m)) ∧
    (USBD_CDC_Init freshDev (some zeroHandle) =
       ({ freshDev with pClassData := some (initInstances zeroHandle).1 },
        initOpenEvents freshDev.dev_speed ++ [Event.appInit 0, Event.appInit 1]
          ++ initPrepareEvents freshDev.dev_speed (initInstances zeroHandle).1,
        0) ∧
     decodeStatus 0 = USBD_Status.OK ∧
     (initInstances zeroHandle).1.TxState 0 = 0 ∧
     (initInstances zeroHandle).1.TxState 1 = 0 ∧
     initPrepareEvents freshDev.dev_speed (initInstances zeroHandle).1 =
       [Event.llPrepareReceive CDC_OUT_EP (zeroHandle.RxBuffer 0)
          (if freshDev.dev_speed = USBD_Speed.HIGH
           then CDC_DATA_HS_OUT_PACKET_SIZE
           else CDC_DATA_FS_OUT_PACKET_SIZE),
        Event.llPrepareReceive CDC2_OUT_EP (zeroHandle.RxBuffer 1)
          (if freshDev.dev_speed = USBD_Speed.HIGH
           then CDC_DATA_HS_OUT_PACKET_SIZE
           else CDC_DATA_FS_OUT_PACKET_SIZE)])) :=
  ⟨rfl, init_spec freshDev 1 zeroHandle rfl⟩

/-! ## Dispatch transition system (for the pendingOpcode invariant) -/

/-- One dispatch-surface operation on an initialized device: the class
callbacks invoked by the external core (setup, data-in, data-out,
control-data-ready) and the driver API calls available to the
application while the class state stays allocated. -/
inductive Op where
  | setup (req : USBD_SetupReqTypedef)
  | dataIn (epnum : Nat)
  | dataOut (epnum rxSize : Nat)
  | ep0RxReady
  | transmitPacket (inst : Nat)
  | receivePacket (inst : Nat)
  | setTxBuffer (inst : Nat) (buf : Ptr) (len : Nat)
  | setRxBuffer (inst : Nat) (buf : Ptr)
  | registerInterface (fops : Option Nat)

/-- The state reached by one dispatch operation. -/
def stepOp (pdev : USBD_HandleTypeDef) : Op → USBD_HandleTypeDef
  | Op.setup req => (USBD_CDC_Setup pdev req).1
  | Op.dataIn epnum => (USBD_CDC_DataIn pdev epnum).1
  | Op.dataOut epnum rxSize => (USBD_CDC_DataOut pdev epnum rxSize).1
  | Op.ep0RxReady => (USBD_CDC_EP0_RxReady pdev).1
  | Op.transmitPacket inst => (USBD_CDC_TransmitPacket pdev inst).1
  | Op.receivePacket inst => (USBD_CDC_ReceivePacket pdev inst).1
  | Op.setTxBuffer inst buf len => (USBD_CDC_SetTxBuffer pdev inst buf len).1
  | Op.setRxBuffer inst buf => (USBD_CDC_SetRxBuffer pdev inst buf).1
  | Op.registerInterface fops => (USBD_CDC_RegisterInterface pdev fops).1

/-- The state reached by a sequence of dispatch operations. -/
def runOps (pdev : USBD_HandleTypeDef) (ops : List Op) : USBD_HandleTypeDef :=
  ops.foldl stepOp pdev

/-- A class Host-to-Device setup with a data phase: the only setup shape
that stages a command (Setup lines 374-393, the wLength nonzero,
direction-bit-clear class case). -/
def isClassOutSetup (req : USBD_SetupReqTypedef) : Prop :=
  req.bmRequest &&& USB_REQ_TYPE_MASK = USB_REQ_TYPE_CLASS ∧
  req.wLength ≠ 0 ∧ req.bmRequest &&& 0x80 = 0

instance (req : USBD_SetupReqTypedef) : Decidable (isClassOutSetup req) := by
  unfold isClassOutSetup
  infer_instance

/-- Spec-level control staging phase derived from the operation history:
`unknown` before the first class control-OUT setup or control-data-ready
event (USBD_CDC_Init leaves CmdOpCode uninitialized), `between` strictly
between such a setup and the next control-data-ready event, `idle`
otherwise. -/
inductive CtrlPhase where
  | unknown
  | between (opcode len : Nat)
  | idle
deriving DecidableEq

/-- Phase transition of the spec-level tracker for one operation. -/
def trackOp (t : CtrlPhase) : Op → CtrlPhase
  | Op.setup req =>
      if isClassOutSetup req then CtrlPhase.between req.bRequest req.wLength
      else t
  | Op.ep0RxReady => CtrlPhase.idle
  | _ => t

/-- Phase of the tracker after a whole operation history. -/
def track (ops : List Op) : CtrlPhase :=
  ops.foldl trackOp CtrlPhase.unknown

/-- What the tracker phase promises about the stored CmdOpCode. -/
def phaseOk (pdev : USBD_HandleTypeDef) : CtrlPhase → Prop
  | CtrlPhase.unknown => True
  | CtrlPhase.between op len =>
      ∀ h, pdev.pClassData = some h → h.CmdOpCode = op ∧ h.CmdLength = len
  | CtrlPhase.idle =>
      ∀ h, pdev.pClassData = some h → h.CmdOpCode = 0xFF

/-- Invariant carried through the dispatch system: callbacks stay
registered, the class state stays allocated, and the stored command
opcode agrees with the tracker phase. -/
def PhaseInv (pdev : USBD_HandleTypeDef) (t : CtrlPhase) : Prop :=
  pdev.pUserData ≠ none ∧ (∃ h, pdev.pClassData = some h) ∧ phaseOk pdev t

/-- The phase promise survives a state change that does not touch
CmdOpCode or CmdLength. -/
theorem phaseOk_of_cmd_eq (pdev pdev' : USBD_HandleTypeDef)
    (h h' : USBD_CDC_HandleTypeDef) (t : CtrlPhase)
    (hcd : pdev.pClassData = some h) (hcd' : pdev'.pClassData = some h')
    (hop : h'.CmdOpCode = h.CmdOpCode) (hlen : h'.CmdLength = h.CmdLength)
    (hph : phaseOk pdev t) : phaseOk pdev' t := by
  cases t with
  | unknown => trivial
  | between op len =>
      intro h2 hh2
      rw [hcd'] at hh2
      injection hh2 with he
      subst he
      obtain ⟨e1, e2⟩ := hph h hcd
      exact ⟨hop.trans e1, hlen.trans e2⟩
  | idle =>
      intro h2 hh2
      rw [hcd'] at hh2
      injection hh2 with he
      subst he
      rw [hop]
      exact hph h hcd

/-- Case analysis of USBD_CDC_Setup's state effect: pUserData is never
touched; the class handle always records the resolved instance, and
additionally records the opcode and length exactly for a class
Host-to-Device setup with a data phase. -/
theorem setup_state_cases (pdev : USBD_HandleTypeDef)
    (h : USBD_CDC_HandleTypeDef) (req : USBD_SetupReqTypedef)
    (hcd : pdev.pClassData = some h) :
    (USBD_CDC_Setup pdev req).1.pUserData = pdev.pUserData ∧
    ((isClassOutSetup req ∧
        (USBD_CDC_Setup pdev req).1.pClassData =
          (some ({ h with ctrlInst := classifyWIndex req.wIndex,
                          CmdOpCode := req.bRequest,
                          CmdLength := req.wLength }))) ∨
     (¬ isClassOutSetup req ∧
        (USBD_CDC_Setup pdev req).1.pClassData =
          (some ({ h with ctrlInst := classifyWIndex req.wIndex })))) := by
  unfold USBD_CDC_Setup
  rw [hcd]
  by_cases hc : req.bmRequest &&& USB_REQ_TYPE_MASK = USB_REQ_TYPE_CLASS
  · by_cases hl : req.wLength = 0
    · refine ⟨by simp [hc, hl], Or.inr ⟨?_, by simp [hc, hl]⟩⟩
      rintro ⟨_, h2, _⟩
      exact h2 hl
    · by_cases hd : req.bmRequest &&& 0x80 = 0
      · exact ⟨by simp [hc, hl, hd], Or.inl ⟨⟨hc, hl, hd⟩, by simp [hc, hl, hd]⟩⟩
      · refine ⟨by simp [hc, hl, hd], Or.inr ⟨?_, by simp [hc, hl, hd]⟩⟩
        rintro ⟨_, _, h3⟩
        exact hd h3
  · have hns : ¬ isClassOutSetup req := fun hs => hc hs.1
    by_cases hstd : req.bmRequest &&& USB_REQ_TYPE_MASK = USB_REQ_TYPE_STANDARD
    · by_cases hg : req.bRequest = USB_REQ_GET_INTERFACE
      · exact ⟨by simp [hc, hstd, hg, USB_REQ_TYPE_STANDARD, USB_REQ_TYPE_CLASS],
               Or.inr ⟨hns, by simp [hc, hstd, hg, USB_REQ_TYPE_STANDARD,
                                     USB_REQ_TYPE_CLASS]⟩⟩
      · exact ⟨by simp [hc, hstd, hg, USB_REQ_TYPE_STANDARD, USB_REQ_TYPE_CLASS],
               Or.inr ⟨hns, by simp [hc, hstd, hg, USB_REQ_TYPE_STANDARD,
                                     USB_REQ_TYPE_CLASS]⟩⟩
    · exact ⟨by simp [hc, hstd], Or.inr ⟨hns, by simp [hc, hstd]⟩⟩

/-- State effect of USBD_CDC_EP0_RxReady when callbacks are registered:
pUserData is untouched and the stored opcode afterwards is always the
0xFF sentinel (it is either reset or was already the sentinel). -/
theorem ep0RxReady_state_char (pdev : USBD_HandleTypeDef)
    (h : USBD_CDC_HandleTypeDef)
    (hcd : pdev.pClassData = some h) (hu : pdev.pUserData ≠ none) :
    (USBD_CDC_EP0_RxReady pdev).1.pUserData = pdev.pUserData ∧
    ∃ h1, (USBD_CDC_EP0_RxReady pdev).1.pClassData = some h1 ∧
      h1.CmdOpCode = 0xFF := by
  unfold USBD_CDC_EP0_RxReady
  rw [hcd]
  by_cases hop : h.CmdOpCode = 0xFF
  · simp [hu, hop, hcd]
  · simp [hu, hop]

/-- One dispatch operation preserves the phase invariant. -/
theorem stepOp_phaseInv (pdev : USBD_HandleTypeDef) (t : CtrlPhase) (o : Op)
    (hI : PhaseInv pdev t) : PhaseInv (stepOp pdev o) (trackOp t o) := by
  obtain ⟨hu, ⟨h, hcd⟩, hph⟩ := hI
  cases o with
  | setup req =>
      obtain ⟨hu2, hcases⟩ := setup_state_cases pdev h req hcd
      refine ⟨?_, ?_, ?_⟩
      · show (USBD_CDC_Setup pdev req).1.pUserData ≠ none
        rw [hu2]
        exact hu
      · rcases hcases with ⟨_, hcd2⟩ | ⟨_, hcd2⟩ <;> exact ⟨_, hcd2⟩
      · by_cases hs : isClassOutSetup req
        · rcases hcases with ⟨_, hcd2⟩ | ⟨hns, _⟩
          · show phaseOk (USBD_CDC_Setup pdev req).1 (trackOp t (Op.setup req))
            rw [trackOp, if_pos hs]
            intro h2 hh2
            rw [hcd2] at hh2
            injection hh2 with he
            subst he
            exact ⟨rfl, rfl⟩
          · exact absurd hs hns
        · rcases hcases with ⟨hs2, _⟩ | ⟨_, hcd2⟩
          · exact absurd hs2 hs
          · show phaseOk (USBD_CDC_Setup pdev req).1 (trackOp t (Op.setup req))
            rw [trackOp, if_neg hs]
            exact phaseOk_of_cmd_eq pdev _ h _ t hcd hcd2 rfl rfl hph
  | dataIn epnum =>
      have hcd2 : (USBD_CDC_DataIn pdev epnum).1.pClassData =
          (some ({ h with TxState :=
            Function.update h.TxState (classifyEpnum epnum) 0 })) := by
        simp [USBD_CDC_DataIn, hcd]
      have hu2 : (USBD_CDC_DataIn pdev epnum).1.pUserData = pdev.pUserData := by
        simp [USBD_CDC_DataIn, hcd]
      exact ⟨by rw [show stepOp pdev (Op.dataIn epnum)
               = (USBD_CDC_DataIn pdev epnum).1 from rfl, hu2]; exact hu,
             ⟨_, hcd2⟩,
             phaseOk_of_cmd_eq pdev _ h _ t hcd hcd2 rfl rfl hph⟩
  | dataOut epnum rxSize =>
      have hcd2 : (USBD_CDC_DataOut pdev epnum rxSize).1.pClassData =
          (some ({ h with RxLength :=
            Function.update h.RxLength (classifyEpnum epnum) rxSize })) := by
        simp [USBD_CDC_DataOut, hcd]
      have hu2 : (USBD_CDC_DataOut pdev epnum rxSize).1.pUserData
          = pdev.pUserData := by
        simp [USBD_CDC_DataOut, hcd]
      exact ⟨by rw [show stepOp pdev (Op.dataOut epnum rxSize)
               = (USBD_CDC_DataOut pdev epnum rxSize).1 from rfl, hu2]; exact hu,
             ⟨_, hcd2⟩,
             phaseOk_of_cmd_eq pdev _ h _ t hcd hcd2 rfl rfl hph⟩
  | ep0RxReady =>
      obtain ⟨hu2, h1, hcd2, hop⟩ := ep0RxReady_state_char pdev h hcd hu
      refine ⟨by rw [show stepOp pdev Op.ep0RxReady
               = (USBD_CDC_EP0_RxReady pdev).1 from rfl, hu2]; exact hu,
             ⟨_, hcd2⟩, ?_⟩
      show phaseOk (USBD_CDC_EP0_RxReady pdev).1 CtrlPhase.idle
      intro h2 hh2
      rw [hcd2] at hh2
      injection hh2 with he
      subst he
      exact hop
  | transmitPacket inst =>
      by_cases hb : h.TxState inst = 0
      · have hcd2 : (USBD_CDC_TransmitPacket pdev inst).1.pClassData =
            (some ({ h with TxState := Function.update h.TxState inst 1 })) := by
          simp [USBD_CDC_TransmitPacket, hcd, hb]
        have hu2 : (USBD_CDC_TransmitPacket pdev inst).1.pUserData
            = pdev.pUserData := by
          simp [USBD_CDC_TransmitPacket, hcd, hb]
        exact ⟨by rw [show stepOp pdev (Op.transmitPacket inst)
                 = (USBD_CDC_TransmitPacket pdev inst).1 from rfl, hu2]; exact hu,
               ⟨_, hcd2⟩,
               phaseOk_of_cmd_eq pdev _ h _ t hcd hcd2 rfl rfl hph⟩
      · have hst : (USBD_CDC_TransmitPacket pdev inst).1 = pdev := by
          simp [USBD_CDC_TransmitPacket, hcd, hb]
        rw [show stepOp pdev (Op.transmitPacket inst)
             = (USBD_CDC_TransmitPacket pdev inst).1 from rfl, hst]
        exact ⟨hu, ⟨h, hcd⟩, hph⟩
  | receivePacket inst =>
      have hst : (USBD_CDC_ReceivePacket pdev inst).1 = pdev := by
        cases hsp : pdev.dev_speed <;>
          simp [USBD_CDC_ReceivePacket, hcd, hsp]
      rw [show stepOp pdev (Op.receivePacket inst)
           = (USBD_CDC_ReceivePacket pdev inst).1 from rfl, hst]
      exact ⟨hu, ⟨h, hcd⟩, hph⟩
  | setTxBuffer inst buf len =>
      have hcd2 : (USBD_CDC_SetTxBuffer pdev inst buf len).1.pClassData =
          (some ({ h with TxBuffer := Function.update h.TxBuffer inst buf,
                          TxLength := Function.update h.TxLength inst len })) := by
        simp [USBD_CDC_SetTxBuffer, hcd]
      have hu2 : (USBD_CDC_SetTxBuffer pdev inst buf len).1.pUserData
          = pdev.pUserData := by
        simp [USBD_CDC_SetTxBuffer, hcd]
      exact ⟨by rw [show stepOp pdev (Op.setTxBuffer inst buf len)
               = (USBD_CDC_SetTxBuffer pdev inst buf len).1 from rfl, hu2]; exact hu,
             ⟨_, hcd2⟩,
             phaseOk_of_cmd_eq pdev _ h _ t hcd hcd2 rfl rfl hph⟩
  | setRxBuffer inst buf =>
      have hcd2 : (USBD_CDC_SetRxBuffer pdev inst buf).1.pClassData =
          (some ({ h with RxBuffer := Function.update h.RxBuffer inst buf })) := by
        simp [USBD_CDC_SetRxBuffer, hcd]
      have hu2 : (USBD_CDC_SetRxBuffer pdev inst buf).1.pUserData
          = pdev.pUserData := by
        simp [USBD_CDC_SetRxBuffer, hcd]
      exact ⟨by rw [show stepOp pdev (Op.setRxBuffer inst buf)
               = (USBD_CDC_SetRxBuffer pdev inst buf).1 from rfl, hu2]; exact hu,
             ⟨_, hcd2⟩,
             phaseOk_of_cmd_eq pdev _ h _ t hcd hcd2 rfl rfl hph⟩
  | registerInterface fops =>
      cases fops with
      | none =>
          exact ⟨hu, ⟨h, hcd⟩, hph⟩
      | some f2 =>
          refine ⟨by simp [stepOp, USBD_CDC_RegisterInterface], ⟨h, hcd⟩, ?_⟩
          exact phaseOk_of_cmd_eq pdev _ h h t hcd hcd rfl rfl hph

/-- A whole operation history preserves the phase invariant. -/
theorem runOps_phaseInv (ops : List Op) (pdev : USBD_HandleTypeDef)
    (t : CtrlPhase) (hI : PhaseInv pdev t) :
    PhaseInv (runOps pdev ops) (ops.foldl trackOp t) := by
  induction ops generalizing pdev t with
  | nil => exact hI
  | cons o os ih => exact ih _ _ (stepOp_phaseInv pdev t o hI)

/-- Claim C4 (amended): in every state reachable from a completed init
through a sequence of dispatch operations, once the history has left the
initial segment — that is, once at least one class control-OUT setup
(wLength greater than zero) or control-data-ready event has occurred —
the stored pendingOpcode equals the 0xFF none sentinel except strictly
between a class control-OUT setup and its corresponding
control-data-ready event, where it equals the staged request code.  The
initial segment must be excluded because USBD_CDC_Init does not
initialize CmdOpCode, so before the first such event it holds whatever
the allocation contained. -/
theorem cmdOpCode_invariant (pdev : USBD_HandleTypeDef) (f : Nat)
    (h0 : USBD_CDC_HandleTypeDef) (ops : List Op)
    (hud : pdev.pUserData = some f) :
    (track ops = CtrlPhase.idle →
      ∃ h, (runOps (USBD_CDC_Init pdev (some h0)).1 ops).pClassData = some h ∧
        h.CmdOpCode = 0xFF) ∧
    (∀ op len, track ops = CtrlPhase.between op len →
      ∃ h, (runOps (USBD_CDC_Init pdev (some h0)).1 ops).pClassData = some h ∧
        h.CmdOpCode = op ∧ h.CmdLength = len) := by
  have hinit : PhaseInv (USBD_CDC_Init pdev (some h0)).1 CtrlPhase.unknown := by
    refine ⟨?_, ⟨(initInstances h0).1, rfl⟩, trivial⟩
    show ({ pdev with pClassData := (some (initInstances h0).1) }
        : USBD_HandleTypeDef).pUserData ≠ none
    simp [hud]
  have hrun := runOps_phaseInv ops _ CtrlPhase.unknown hinit
  obtain ⟨_, ⟨h, hcd⟩, hph⟩ := hrun
  constructor
  · intro hidle
    rw [show track ops = ops.foldl trackOp CtrlPhase.unknown from rfl] at hidle
    rw [hidle] at hph
    exact ⟨h, hcd, hph h hcd⟩
  · intro op len hbetween
    rw [show track ops = ops.foldl trackOp CtrlPhase.unknown from rfl]
      at hbetween
    rw [hbetween] at hph
    exact ⟨h, hcd, hph h hcd⟩

/-- Claim C4 counterexample: immediately after a completed init with a
zero-filled allocation and an empty dispatch history — a state that is
not between any class control-OUT setup and data-ready event, since no
such setup ever happened — the stored pendingOpcode is 0, not the 0xFF
none sentinel, because USBD_CDC_Init never writes CmdOpCode. -/
theorem cmdOpCode_invariant_cex :
    (runOps (USBD_CDC_Init freshDev (some zeroHandle)).1 []).pClassData.map
        USBD_CDC_HandleTypeDef.CmdOpCode = some 0 ∧
    (0 : Nat) ≠ 0xFF ∧
    track [] = CtrlPhase.unknown := by
  refine ⟨rfl, by decide, rfl⟩

/-- Claim C4 witness: a concrete history — one class control-OUT setup
staging opcode 0x20 with an 8-byte data phase, then its
control-data-ready event — whose tracker phase is idle, so the stored
opcode is back at the 0xFF sentinel. -/
theorem cmdOpCode_invariant_witness :
    freshDev.pUserData = some 1 ∧
    track [Op.setup { bmRequest := 0x21, bRequest := 0x20, wValue := 0,
                      wIndex := 0, wLength := 8 },
           Op.ep0RxReady] = CtrlPhase.idle ∧
    ∃ h, (runOps (USBD_CDC_Init freshDev (some zeroHandle)).1
            [Op.setup { bmRequest := 0x21, bRequest := 0x20, wValue := 0,
                        wIndex := 0, wLength := 8 },
             Op.ep0RxReady]).pClassData = some h ∧
      h.CmdOpCode = 0xFF :=
  ⟨rfl, by decide,
   (cmdOpCode_invariant freshDev 1 zeroHandle
      [Op.setup { bmRequest := 0x21, bRequest := 0x20, wValue := 0,
                  wIndex := 0, wLength := 8 },
       Op.ep0RxReady] rfl).1 (by decide)⟩

end UsbdCdc
